import Mathlib

/-
Verification development for the cursor-tracker extension.

The repository is a Chrome extension (content script, background script,
popup) that records click/hover interaction events, batches them and ships
them to a local collector service.  The background script (the second,
most complete revision kept in the repository) owns the session state
machine; the content script owns the batch queue and the hover debouncer;
the popup is the control surface that gates user intents.

Each definition below is a direct shallow embedding of a function of the
source, with the source file and lines noted in its doc comment.
-/

namespace CursorTracker

/-- Session lifecycle status, the three string constants used by the
background script (`"IDLE" | "RUNNING" | "PAUSED"`). -/
inductive SessionStatus
  | IDLE
  | RUNNING
  | PAUSED
deriving DecidableEq, Repr

/-- The background script's global `state` object: `isConnected`,
`sessionStatus`, `sessionName` (user input) and `serverSessionName`
(the collector-confirmed identifier, a folder name on the collector). -/
structure SessionState where
  isConnected : Bool
  sessionStatus : SessionStatus
  sessionName : String
  serverSessionName : String
deriving DecidableEq, Repr

/-- Initial value of `state`: `{isConnected: false, sessionStatus: "IDLE",
sessionName: "", serverSessionName: ""}`. -/
def initialState : SessionState :=
  { isConnected := false, sessionStatus := .IDLE, sessionName := "", serverSessionName := "" }

/-- The `UPDATE_SESSION` message payload `{status, name}`.  Either field
may be absent (`undefined` in the script); the script tests `if(status)`
and `if(name !== undefined)`, modelled here with `Option`.  All actual
senders (the popup) only ever supply one of the three status constants. -/
structure UpdatePayload where
  status : Option SessionStatus
  name : Option String
deriving DecidableEq, Repr

/-- Outcome of the collector's `/start-session` call as observed by the
script: either the parsed JSON body carrying the collector-assigned
`session_name`, or any thrown error (network failure or a body that does
not parse). -/
inductive CollectorResult
  | ok (session_name : String)
  | err
deriving DecidableEq, Repr

/-- What `handleSessionUpdate` produces: the mutated `state`, the
`success` flag of the object passed to `sendResponse`, and whether a
`/start-session` network call was issued. -/
structure UpdateOutcome where
  newState : SessionState
  success : Bool
  startCallMade : Bool
deriving DecidableEq, Repr

/-- Shallow embedding of `handleSessionUpdate` (background script,
`src/unnamed/part_001` second revision).  Branch 1 (start): when
`status === "RUNNING" && oldStatus === "IDLE"` it POSTs `/start-session`;
on success it sets `sessionStatus = "RUNNING"`, `sessionName = name`,
`serverSessionName = data.session_name` and responds `success: true`; in
the catch branch it responds `success: false` and touches no state.
Branch 2 (any other change): applies `status` and `name` when provided,
and clears `serverSessionName` exactly when `status === "IDLE"`.  The
marker POSTs (`SESSION_END` etc.) are fire-and-forget and do not touch
the state, so they are not part of the outcome. -/
def handleSessionUpdate (st : SessionState) (p : UpdatePayload) (c : CollectorResult) :
    UpdateOutcome :=
  if p.status = some .RUNNING ∧ st.sessionStatus = .IDLE then
    match c with
    | .ok sid =>
        { newState := { st with sessionStatus := .RUNNING,
                                sessionName := p.name.getD "",
                                serverSessionName := sid },
          success := true, startCallMade := true }
    | .err =>
        { newState := st, success := false, startCallMade := true }
  else
    let st1 : SessionState :=
      { st with sessionStatus := p.status.getD st.sessionStatus,
                sessionName := p.name.getD st.sessionName }
    let st2 : SessionState :=
      if p.status = some .IDLE then { st1 with serverSessionName := "" } else st1
    { newState := st2, success := true, startCallMade := false }

/-- What one heartbeat tick produces: the mutated `state` and the state
snapshot published to observers (`chrome.runtime.sendMessage({action:
"STATUS_UPDATE", state})`, sent unconditionally at the end of the tick). -/
structure HeartbeatOutcome where
  newState : SessionState
  published : SessionState
deriving DecidableEq, Repr

/-- Shallow embedding of the heartbeat `setInterval` body (background
script).  `probeOk` is true exactly when the `/verify` fetch resolved
with `response.ok`; any network error or non-ok response takes the catch
path, which sets `isConnected = false` and auto-pauses a `RUNNING`
session.  The resulting state is published unconditionally. -/
def heartbeatTick (st : SessionState) (probeOk : Bool) : HeartbeatOutcome :=
  let st' : SessionState :=
    if probeOk then { st with isConnected := true }
    else { st with isConnected := false,
                   sessionStatus :=
                     if st.sessionStatus = .RUNNING then .PAUSED else st.sessionStatus }
  { newState := st', published := st' }

/-- The popup's input-field management (`updateUI`, `popup.js`): while the
session is not `IDLE` the name input is overwritten with the state's
`sessionName` and disabled, so the value the popup reads from the field is
the typed text only while `IDLE`. -/
def popupInputValue (st : SessionState) (typed : String) : String :=
  if st.sessionStatus = .IDLE then typed else st.sessionName

/-- The `UPDATE_SESSION` payload built by the popup's `sendUpdate`:
`{status, name: els.input.value}`. -/
def popupRequest (st : SessionState) (typed : String) (status : SessionStatus) :
    UpdatePayload :=
  { status := some status, name := some (popupInputValue st typed) }

/-- The popup's start-button gate (`updateUI`, `popup.js`):
`canStart = isConnected && els.input.value.trim().length > 0`. -/
def canStart (isConnected : Bool) (inputValue : String) : Bool :=
  isConnected && decide (0 < inputValue.trim.length)

/-- Outcome of a user click on the start button: the resulting session
state and whether a `/start-session` network call was issued. -/
structure StartClickOutcome where
  newState : SessionState
  startCallMade : Bool
deriving DecidableEq, Repr

/-- A click on the popup's start button.  The button is rendered only
while `sessionStatus = IDLE` and is disabled unless `canStart`, so the
click reaches `handleSessionUpdate` (with `status = "RUNNING"` and the
field's value as name) only when both hold; otherwise nothing happens. -/
def popupStartClick (st : SessionState) (typed : String) (c : CollectorResult) :
    StartClickOutcome :=
  if st.sessionStatus = .IDLE ∧ canStart st.isConnected (popupInputValue st typed) = true then
    let o := handleSessionUpdate st (popupRequest st typed .RUNNING) c
    { newState := o.newState, startCallMade := o.startCallMade }
  else
    { newState := st, startCallMade := false }

/-- States of the background script's `state` object reachable from its
initial value through `UPDATE_SESSION` handling and heartbeat ticks. -/
inductive Reachable : SessionState → Prop
  | init : Reachable initialState
  | update (st : SessionState) (p : UpdatePayload) (c : CollectorResult) :
      Reachable st → Reachable (handleSessionUpdate st p c).newState
  | beat (st : SessionState) (b : Bool) :
      Reachable st → Reachable (heartbeatTick st b).newState

/-- Invariant: whenever the status is `IDLE`, the collector identifier is
empty. -/
def serverIdInv (st : SessionState) : Prop :=
  st.sessionStatus = .IDLE → st.serverSessionName = ""

lemma serverIdInv_update (st : SessionState) (p : UpdatePayload) (c : CollectorResult)
    (h : serverIdInv st) : serverIdInv (handleSessionUpdate st p c).newState := by
  unfold serverIdInv handleSessionUpdate at *
  split
  · cases c <;> simp_all
  · split
    · intro _; rfl
    · next hnotIdle =>
      intro hIdleNew
      cases hp : p.status with
      | none =>
        simp [hp] at hIdleNew
        exact h hIdleNew
      | some s =>
        simp [hp] at hIdleNew
        exact absurd (by rw [hp, hIdleNew]) hnotIdle

lemma serverIdInv_beat (st : SessionState) (b : Bool)
    (h : serverIdInv st) : serverIdInv (heartbeatTick st b).newState := by
  unfold serverIdInv heartbeatTick at *
  cases b <;> cases hs : st.sessionStatus <;> simp_all

lemma reachable_serverIdInv (st : SessionState) (h : Reachable st) : serverIdInv st := by
  induction h with
  | init => intro _; rfl
  | update st p c _ ih => exact serverIdInv_update st p c ih
  | beat st b _ ih => exact serverIdInv_beat st b ih

/-- Batch size threshold of the content script: `const BATCH_SIZE = 10`. -/
def BATCH_SIZE : Nat := 10

/-- Batching state of the content script: the pending `eventBatch` list
and whether the 3-second `batchTimeout` timer is currently set.  Events
are kept abstract in `α`. -/
structure BatchState (α : Type) where
  queue : List α
  timerArmed : Bool
deriving DecidableEq, Repr

/-- Initial batching state: `eventBatch = []`, no timer. -/
def initialBatch (α : Type) : BatchState α :=
  { queue := [], timerArmed := false }

/-- Shallow embedding of `sendBatch` (content.js): clear the timer; if
the queue is empty return without sending; otherwise copy the queue,
clear it and emit the copy as the flushed batch. -/
def sendBatch {α : Type} (s : BatchState α) : BatchState α × Option (List α) :=
  if s.queue.isEmpty then ({ queue := s.queue, timerArmed := false }, none)
  else ({ queue := [], timerArmed := false }, some s.queue)

/-- The batching tail of `recordEvent` (content.js): push the data point;
if the queue has reached `BATCH_SIZE`, call `sendBatch` immediately;
otherwise arm the batch timer if it is not already armed. -/
def recordEventEnqueue {α : Type} (s : BatchState α) (e : α) :
    BatchState α × Option (List α) :=
  let q := s.queue ++ [e]
  if BATCH_SIZE ≤ q.length then
    sendBatch { queue := q, timerArmed := s.timerArmed }
  else if s.timerArmed then ({ queue := q, timerArmed := s.timerArmed }, none)
  else ({ queue := q, timerArmed := true }, none)

/-- Stimuli that drive the batch queue over time: an enqueue from
`recordEvent`, or one of the flush triggers — the 3-second batch timer
firing, the 5-second safety-net sweep, or the `beforeunload` drain — each
of which calls `sendBatch`. -/
inductive BatchOp (α : Type)
  | enq (e : α)
  | flush
deriving DecidableEq, Repr

/-- One step of the batching component. -/
def batchStep {α : Type} (s : BatchState α) : BatchOp α → BatchState α × Option (List α)
  | .enq e => recordEventEnqueue s e
  | .flush => sendBatch s

/-- Run a sequence of batching stimuli, collecting the flushed batches in
the order they were emitted. -/
def runBatch {α : Type} (s : BatchState α) : List (BatchOp α) → BatchState α × List (List α)
  | [] => (s, [])
  | op :: ops =>
    let r := batchStep s op
    let rest := runBatch r.1 ops
    (rest.1, r.2.toList ++ rest.2)

/-- The events enqueued by a stimulus sequence, in order. -/
def enqueuedEvents {α : Type} : List (BatchOp α) → List α
  | [] => []
  | .enq e :: ops => e :: enqueuedEvents ops
  | .flush :: ops => enqueuedEvents ops

lemma runBatch_conservation {α : Type} (ops : List (BatchOp α)) (s : BatchState α) :
    ((runBatch s ops).2).flatten ++ (runBatch s ops).1.queue =
      s.queue ++ enqueuedEvents ops := by
  induction ops generalizing s with
  | nil => simp [runBatch, enqueuedEvents]
  | cons op ops ih =>
    cases op with
    | enq e =>
      simp only [runBatch, batchStep, enqueuedEvents]
      by_cases hle : BATCH_SIZE ≤ s.queue.length + 1
      · have hq : (s.queue ++ [e]).isEmpty = false := by simp
        simp [recordEventEnqueue, sendBatch, hle, hq, ih, List.append_assoc]
      · by_cases ht : s.timerArmed
        · simp [recordEventEnqueue, hle, ht, ih, List.append_assoc]
        · simp [recordEventEnqueue, hle, ht, ih, List.append_assoc]
    | flush =>
      simp only [runBatch, batchStep, enqueuedEvents]
      by_cases hempty : s.queue.isEmpty
      · simp only [List.isEmpty_iff] at hempty
        simp [sendBatch, hempty, ih]
      · simp [sendBatch, hempty, ih, List.append_assoc]

lemma runBatch_trailing_flush_queue {α : Type} (ops : List (BatchOp α)) (s : BatchState α) :
    (runBatch s (ops ++ [BatchOp.flush])).1.queue = [] := by
  induction ops generalizing s with
  | nil =>
    simp only [List.nil_append, runBatch, batchStep]
    unfold sendBatch
    split
    · next hempty => simpa [runBatch, List.isEmpty_iff] using hempty
    · simp [runBatch]
  | cons op ops ih =>
    simp only [List.cons_append, runBatch]
    exact ih _

lemma enqueuedEvents_append_flush {α : Type} (ops : List (BatchOp α)) :
    enqueuedEvents (ops ++ [BatchOp.flush]) = enqueuedEvents ops := by
  induction ops with
  | nil => rfl
  | cons op ops ih => cases op <;> simp [enqueuedEvents, ih]

/-- State of the hover debouncer in the content script:
`currentHoveredElement` (initially null) and whether a `hoverTimeout`
settle timer is pending.  Resolved targets are kept abstract in `α`. -/
structure HoverState (α : Type) where
  tracked : Option α
  pending : Bool
deriving DecidableEq, Repr

/-- Initial debouncer state: no tracked element, no pending timer. -/
def initialHover (α : Type) : HoverState α :=
  { tracked := none, pending := false }

/-- Stimuli for the debouncer: a pointer movement that passed the
100-millisecond throttle and resolved (via `getMeaningfulTarget`) to
target `t`, or the scheduled settle timer firing. -/
inductive HoverSignal (α : Type)
  | move (t : α)
  | fire
deriving DecidableEq, Repr

/-- One step of the `mousemove` listener and settle timer (content.js):
a movement resolving to the currently tracked element does nothing, so a
running settle timer is left alone; a movement resolving to a different
element cancels any pending settle timer (`clearTimeout`), updates
`currentHoveredElement` and schedules a fresh 500-millisecond timer; the
timer, when it fires uninterrupted, records a hover on the tracked
element and becomes idle.  A fire with no pending timer has no effect
(the timeout was cancelled). -/
def hoverStep {α : Type} [DecidableEq α] (s : HoverState α) :
    HoverSignal α → HoverState α × Option α
  | .move t =>
    if s.tracked = some t then (s, none)
    else ({ tracked := some t, pending := true }, none)
  | .fire =>
    if s.pending then ({ tracked := s.tracked, pending := false }, s.tracked)
    else (s, none)

/-- Run a sequence of debouncer stimuli, collecting the recorded hover
targets in order. -/
def runHover {α : Type} [DecidableEq α] (s : HoverState α) :
    List (HoverSignal α) → HoverState α × List α
  | [] => (s, [])
  | sig :: sigs =>
    let r := hoverStep s sig
    let rest := runHover r.1 sigs
    (rest.1, r.2.toList ++ rest.2)

/-- Number of dwell starts a signal sequence causes: movements whose
target differs from the element tracked at that moment. -/
def dwellStarts {α : Type} [DecidableEq α] : Option α → List (HoverSignal α) → Nat
  | _, [] => 0
  | cur, .move t :: sigs =>
    if cur = some t then dwellStarts cur sigs
    else 1 + dwellStarts (some t) sigs
  | cur, .fire :: sigs => dwellStarts cur sigs

/-- The excerpt cap of `recordEvent`: `if (safeHTML.length > 500)`. -/
def EXCERPT_CAP : Nat := 500

/-- Truncation step of `recordEvent` (content.js): content longer than
the cap keeps its first 500 units and appends the visible `"..."`
truncation marker.  The outerHTML string is modelled as its sequence of
code units (a character list). -/
def truncateExcerpt (html : List Char) : List Char :=
  if EXCERPT_CAP < html.length then html.take EXCERPT_CAP ++ ['.', '.', '.'] else html

/-- Full HTML-safety step of `recordEvent` (content.js): truncate, then
replace the excerpt of a `BODY` or `HTML` element by the fixed sentinel
`"BODY_CONTAINER"` regardless of content. -/
def safeHTML (tagName : String) (html : List Char) : List Char :=
  let t := truncateExcerpt html
  if tagName = "BODY" ∨ tagName = "HTML" then "BODY_CONTAINER".data else t

/-- Scan for a run of three consecutive decimal digits; `run` counts the
digits matched so far. -/
def digitRunAux : List Char → Nat → Bool
  | [], _ => false
  | c :: cs, run =>
    if c.isDigit then
      if 3 ≤ run + 1 then true else digitRunAux cs (run + 1)
    else digitRunAux cs 0

/-- The `/\d{3,}/` test of `getCssSelector`: true when the string holds
three or more consecutive digits. -/
def hasDigitRun3 (s : String) : Bool :=
  digitRunAux s.data 0

/-- The dynamic-id heuristic of `getCssSelector`:
`/\d{3,}/.test(el.id) || el.id.length > 30`. -/
def isDynamicId (id : String) : Bool :=
  hasDigitRun3 id || decide (30 < id.length)

/-- State classes excluded from selectors by `getCssSelector`. -/
def STATE_CLASSES : List String := ["active", "focus", "hover", "open"]

/-- The class filter of `getCssSelector`: split the className on
whitespace and keep non-empty tokens that are not transient state
classes. -/
def cleanClasses (className : String) : List String :=
  (className.split (fun c => c.isWhitespace)).filter
    (fun c => 0 < c.length && !(STATE_CLASSES.contains c))

/-- A snapshot of one element on the ancestor chain as the selector loop
reads it: its tagName (uppercase, as the DOM reports it), its id
attribute (empty when absent), its className string, and its 1-based
nth-of-type position among preceding same-tag siblings. -/
structure DomElem where
  tagName : String
  id : String
  className : String
  nth : Nat
deriving DecidableEq, Repr

/-- ASCII lowercase of a tag name (`tagName.toLowerCase()` in the
source), mapped characterwise so it evaluates by reduction. -/
def lowerTag (s : String) : String :=
  String.mk (s.data.map Char.toLower)

/-- The non-anchored path segment built for one element:
`tag[.filteredClasses]:nth-of-type(n)`. -/
def selectorSeg (e : DomElem) : String :=
  let base := lowerTag e.tagName
  let withClasses :=
    if e.className ≠ "" ∧ cleanClasses e.className ≠ [] then
      base ++ "." ++ String.intercalate "." (cleanClasses e.className)
    else base
  withClasses ++ ":nth-of-type(" ++ toString e.nth ++ ")"

/-- The upward walk of `getCssSelector` over the ancestor chain (element
first, ending below the document root): an element with a non-empty id
that is not judged dynamic anchors the path as `tag#id` and stops the
walk; otherwise the structural segment is emitted and the walk
continues. -/
def cssPath : List DomElem → List String
  | [] => []
  | e :: rest =>
    if e.id ≠ "" ∧ isDynamicId e.id = false then
      [lowerTag e.tagName ++ "#" ++ e.id]
    else selectorSeg e :: cssPath rest

/-- The generated structural selector: the path segments joined root
first with `" > "` (the source builds root-first via `unshift`). -/
def getCssSelector (chain : List DomElem) : String :=
  String.intercalate " > " (cssPath chain).reverse

/-- The `target.id` field recorded by `recordEvent`:
`id: element.id || null`. -/
def targetIdField (e : DomElem) : Option String :=
  if e.id = "" then none else some e.id

lemma isDynamicId_ne_empty (s : String) (h : isDynamicId s = true) : s ≠ "" := by
  intro hs
  subst hs
  simp [isDynamicId, hasDigitRun3, digitRunAux] at h

lemma runHover_records_le {α : Type} [DecidableEq α] (sigs : List (HoverSignal α))
    (s : HoverState α) :
    (runHover s sigs).2.length ≤
      dwellStarts s.tracked sigs + (if s.pending then 1 else 0) := by
  induction sigs generalizing s with
  | nil => simp [runHover]
  | cons sig sigs ih =>
    cases sig with
    | move t =>
      by_cases hEq : s.tracked = some t
      · have h := ih s
        simpa [runHover, hoverStep, hEq, dwellStarts] using h
      · have h := ih { tracked := some t, pending := true }
        simp at h
        simp [runHover, hoverStep, hEq, dwellStarts]
        omega
    | fire =>
      by_cases hp : s.pending
      · have h := ih { tracked := s.tracked, pending := false }
        simp at h
        have hlen : s.tracked.toList.length ≤ 1 := by
          cases s.tracked <;> simp
        simp [runHover, hoverStep, hp, dwellStarts]
        omega
      · have h := ih s
        simpa [runHover, hoverStep, hp, dwellStarts] using h

lemma dwellStarts_const_target {α : Type} [DecidableEq α] (t : α)
    (sigs : List (HoverSignal α))
    (h : ∀ v, HoverSignal.move v ∈ sigs → v = t) (cur : Option α) :
    dwellStarts cur sigs ≤ if cur = some t then 0 else 1 := by
  revert h
  induction sigs generalizing cur with
  | nil =>
    intro _
    simp [dwellStarts]
  | cons sig sigs ih =>
    intro h
    cases sig with
    | move v =>
      have hv : v = t := h v (by simp)
      have hrest : ∀ w, HoverSignal.move w ∈ sigs → w = t := by
        intro w hw
        exact h w (by simp [hw])
      by_cases hc : cur = some v
      · have hthis := ih cur hrest
        have hcur : cur = some t := by rw [hc, hv]
        simp only [dwellStarts, if_pos hc]
        simpa [hcur] using hthis
      · have hthis := ih (some v) hrest
        have hct : ¬ cur = some t := by
          rw [← hv]
          exact hc
        have hvt : (some v : Option α) = some t := by rw [hv]
        rw [if_pos hvt] at hthis
        simp only [dwellStarts, if_neg hc, if_neg hct]
        omega
    | fire =>
      have hrest : ∀ w, HoverSignal.move w ∈ sigs → w = t := by
        intro w hw
        exact h w (by simp [hw])
      simpa [dwellStarts] using ih cur hrest

end CursorTracker

namespace CursorTracker

/-- CLAIM C1. Start request in `IDLE` with a non-empty name while
connected: on collector success the state ends `RUNNING` with the
non-empty collector-assigned identifier adopted from the response and a
success result; on collector failure the state is entirely unchanged
(still `IDLE`) and an explicit failure result is returned. -/
theorem start_session_success_and_failure (st : SessionState) (name sid : String)
    (c : CollectorResult)
    (hIdle : st.sessionStatus = .IDLE) (hConn : st.isConnected = true)
    (hName : name ≠ "") :
    (c = .ok sid → sid ≠ "" →
      (handleSessionUpdate st ⟨some .RUNNING, some name⟩ c).newState.sessionStatus = .RUNNING ∧
      (handleSessionUpdate st ⟨some .RUNNING, some name⟩ c).newState.serverSessionName = sid ∧
      (handleSessionUpdate st ⟨some .RUNNING, some name⟩ c).newState.serverSessionName ≠ "" ∧
      (handleSessionUpdate st ⟨some .RUNNING, some name⟩ c).success = true) ∧
    (c = .err →
      (handleSessionUpdate st ⟨some .RUNNING, some name⟩ c).newState = st ∧
      (handleSessionUpdate st ⟨some .RUNNING, some name⟩ c).success = false) := by
  constructor
  · rintro rfl hsid
    simp [handleSessionUpdate, hIdle, hsid]
  · rintro rfl
    simp [handleSessionUpdate, hIdle]

/-- Witness for C1 at a concrete state, name and collector response. -/
theorem start_session_success_and_failure_witness :
    ((handleSessionUpdate ⟨true, .IDLE, "", ""⟩ ⟨some .RUNNING, some "alpha"⟩
        (.ok "alpha_1")).newState.sessionStatus = .RUNNING ∧
      (handleSessionUpdate ⟨true, .IDLE, "", ""⟩ ⟨some .RUNNING, some "alpha"⟩
        (.ok "alpha_1")).newState.serverSessionName = "alpha_1" ∧
      (handleSessionUpdate ⟨true, .IDLE, "", ""⟩ ⟨some .RUNNING, some "alpha"⟩
        (.ok "alpha_1")).newState.serverSessionName ≠ "" ∧
      (handleSessionUpdate ⟨true, .IDLE, "", ""⟩ ⟨some .RUNNING, some "alpha"⟩
        (.ok "alpha_1")).success = true) ∧
    ((handleSessionUpdate ⟨true, .IDLE, "", ""⟩ ⟨some .RUNNING, some "alpha"⟩
        .err).newState = ⟨true, .IDLE, "", ""⟩ ∧
      (handleSessionUpdate ⟨true, .IDLE, "", ""⟩ ⟨some .RUNNING, some "alpha"⟩
        .err).success = false) :=
  ⟨(start_session_success_and_failure ⟨true, .IDLE, "", ""⟩ "alpha" "alpha_1" (.ok "alpha_1")
      rfl rfl (by decide)).1 rfl (by decide),
   (start_session_success_and_failure ⟨true, .IDLE, "", ""⟩ "alpha" "alpha_1" .err
      rfl rfl (by decide)).2 rfl⟩

/-- CLAIM C3, counterexample. A transition to `IDLE` whose request does
not carry a name (the `name !== undefined` guard fails) clears the
collector identifier but leaves `sessionName = "alpha"` intact, so a
transition to `IDLE` does not always clear both fields. -/
theorem idle_transition_keeps_name_counterexample :
    (handleSessionUpdate ⟨true, .RUNNING, "alpha", "srv1"⟩ ⟨some .IDLE, none⟩
        .err).newState =
      ⟨true, .IDLE, "alpha", ""⟩ ∧
    (handleSessionUpdate ⟨true, .RUNNING, "alpha", "srv1"⟩ ⟨some .IDLE, none⟩
        .err).newState.sessionName ≠ "" := by
  constructor <;> decide

/-- CLAIM C3, amended. In every reachable state the collector identifier
is non-empty only when the status is `RUNNING` or `PAUSED`; a pause
request from `RUNNING` leaves the identifier unchanged, as does every
heartbeat tick; every transition to `IDLE` clears the collector
identifier, and it clears `sessionName` when the request carries the
empty name — as the popup's end button always does — but retains the old
name when the request omits the name field. -/
theorem collector_id_lifecycle (st : SessionState) (p : UpdatePayload)
    (c : CollectorResult) (b : Bool)
    (hReach : Reachable st) :
    (st.serverSessionName ≠ "" →
      st.sessionStatus = .RUNNING ∨ st.sessionStatus = .PAUSED) ∧
    (st.sessionStatus = .RUNNING → p.status = some .PAUSED →
      (handleSessionUpdate st p c).newState.serverSessionName = st.serverSessionName) ∧
    ((heartbeatTick st b).newState.serverSessionName = st.serverSessionName) ∧
    (p.status = some .IDLE →
      (handleSessionUpdate st p c).newState.serverSessionName = "" ∧
      (p.name = some "" → (handleSessionUpdate st p c).newState.sessionName = "")) := by
  refine ⟨?_, ?_, ?_, ?_⟩
  · intro hne
    cases hs : st.sessionStatus with
    | IDLE => exact absurd (reachable_serverIdInv st hReach hs) hne
    | RUNNING => exact Or.inl rfl
    | PAUSED => exact Or.inr rfl
  · intro hrun hp
    simp [handleSessionUpdate, hp, hrun]
  · simp [heartbeatTick]
    split <;> rfl
  · intro hp
    constructor
    · simp [handleSessionUpdate, hp]
    · intro hn
      simp [handleSessionUpdate, hp, hn]

/-- Witness for C3's amended statement, applied along the reachable run
start (collector confirms `"srv1"`), then pause, then end. -/
theorem collector_id_lifecycle_witness :
    (((handleSessionUpdate initialState ⟨some .RUNNING, some "alpha"⟩
          (.ok "srv1")).newState.sessionStatus = .RUNNING ∨
        (handleSessionUpdate initialState ⟨some .RUNNING, some "alpha"⟩
          (.ok "srv1")).newState.sessionStatus = .PAUSED) ∧
      ((handleSessionUpdate
          (handleSessionUpdate initialState ⟨some .RUNNING, some "alpha"⟩
            (.ok "srv1")).newState
          ⟨some .PAUSED, some "alpha"⟩ .err).newState.serverSessionName =
        (handleSessionUpdate initialState ⟨some .RUNNING, some "alpha"⟩
          (.ok "srv1")).newState.serverSessionName)) ∧
    ((handleSessionUpdate
        (handleSessionUpdate
          (handleSessionUpdate initialState ⟨some .RUNNING, some "alpha"⟩
            (.ok "srv1")).newState
          ⟨some .PAUSED, some "alpha"⟩ .err).newState
        ⟨some .IDLE, some ""⟩ .err).newState.serverSessionName = "" ∧
      (handleSessionUpdate
        (handleSessionUpdate
          (handleSessionUpdate initialState ⟨some .RUNNING, some "alpha"⟩
            (.ok "srv1")).newState
          ⟨some .PAUSED, some "alpha"⟩ .err).newState
        ⟨some .IDLE, some ""⟩ .err).newState.sessionName = "") := by
  have hr1 : Reachable (handleSessionUpdate initialState ⟨some .RUNNING, some "alpha"⟩
      (.ok "srv1")).newState :=
    Reachable.update initialState ⟨some .RUNNING, some "alpha"⟩ (.ok "srv1") Reachable.init
  have hr2 : Reachable (handleSessionUpdate
      (handleSessionUpdate initialState ⟨some .RUNNING, some "alpha"⟩
        (.ok "srv1")).newState ⟨some .PAUSED, some "alpha"⟩ .err).newState :=
    Reachable.update _ ⟨some .PAUSED, some "alpha"⟩ .err hr1
  constructor
  · constructor
    · exact (collector_id_lifecycle
        (handleSessionUpdate initialState ⟨some .RUNNING, some "alpha"⟩ (.ok "srv1")).newState
        ⟨some .PAUSED, some "alpha"⟩ .err true hr1).1 (by decide)
    · exact (collector_id_lifecycle
        (handleSessionUpdate initialState ⟨some .RUNNING, some "alpha"⟩ (.ok "srv1")).newState
        ⟨some .PAUSED, some "alpha"⟩ .err true hr1).2.1 (by decide) rfl
  · have h := (collector_id_lifecycle _ ⟨some .IDLE, some ""⟩ .err true hr2).2.2.2 rfl
    exact ⟨h.1, h.2 rfl⟩

/-- CLAIM C4, counterexample. An `UPDATE_SESSION` request carrying a new
name while the session is `RUNNING` does change `sessionName`: the state
machine applies any provided name unconditionally. -/
theorem name_edit_while_running_counterexample :
    (handleSessionUpdate ⟨true, .RUNNING, "alpha", "srv1"⟩ ⟨some .PAUSED, some "beta"⟩
        .err).newState.sessionName = "beta" ∧
    ("beta" : String) ≠ "alpha" := by
  constructor <;> decide

/-- CLAIM C4, amended. The rejection of name edits while `RUNNING` or
`PAUSED` is enforced at the control-surface boundary, not inside
`handleSessionUpdate`: the popup locks the name input outside `IDLE` and
overwrites its value with the state's `sessionName`, so every request the
popup issues in those states carries the current name, and the state
machine then leaves `sessionName` unchanged and reports success. -/
theorem popup_name_edit_ignored_outside_idle (st : SessionState) (typed : String)
    (status : SessionStatus) (c : CollectorResult)
    (h : st.sessionStatus = .RUNNING ∨ st.sessionStatus = .PAUSED) :
    (handleSessionUpdate st (popupRequest st typed status) c).newState.sessionName =
      st.sessionName ∧
    (handleSessionUpdate st (popupRequest st typed status) c).success = true := by
  have hni : st.sessionStatus ≠ .IDLE := by
    rcases h with h | h <;> simp [h]
  have hval : popupInputValue st typed = st.sessionName := by
    simp [popupInputValue, hni]
  unfold handleSessionUpdate popupRequest
  rw [hval]
  split
  · next hcond => exact absurd hcond.2 hni
  · constructor
    · split <;> rfl
    · rfl

/-- Witness for C4's amended statement: a pause click while `RUNNING`
with some stale typed text leaves the name `"alpha"`. -/
theorem popup_name_edit_ignored_outside_idle_witness :
    (handleSessionUpdate ⟨true, .RUNNING, "alpha", "srv1"⟩
        (popupRequest ⟨true, .RUNNING, "alpha", "srv1"⟩ "typedJunk" .PAUSED)
        .err).newState.sessionName = "alpha" ∧
    (handleSessionUpdate ⟨true, .RUNNING, "alpha", "srv1"⟩
        (popupRequest ⟨true, .RUNNING, "alpha", "srv1"⟩ "typedJunk" .PAUSED)
        .err).success = true :=
  popup_name_edit_ignored_outside_idle ⟨true, .RUNNING, "alpha", "srv1"⟩
    "typedJunk" .PAUSED .err (Or.inl rfl)

/-- CLAIM C5. A start attempt made while disconnected, or while the
trimmed session name is empty, is refused at the popup boundary: the
start button is disabled, the state is unchanged (still `IDLE`) and no
`/start-session` network call is made. -/
theorem start_refused_without_connection_or_name (st : SessionState) (typed : String)
    (c : CollectorResult)
    (hIdle : st.sessionStatus = .IDLE)
    (h : st.isConnected = false ∨ typed.trim = "") :
    (popupStartClick st typed c).newState = st ∧
    (popupStartClick st typed c).newState.sessionStatus = .IDLE ∧
    (popupStartClick st typed c).startCallMade = false := by
  have hval : popupInputValue st typed = typed := by
    simp [popupInputValue, hIdle]
  have hcs : canStart st.isConnected (popupInputValue st typed) = false := by
    rw [hval]
    rcases h with h | h
    · simp [canStart, h]
    · simp [canStart, h]
  have hstep : popupStartClick st typed c = { newState := st, startCallMade := false } := by
    unfold popupStartClick
    rw [hcs]
    simp
  rw [hstep]
  exact ⟨rfl, hIdle, rfl⟩

/-- Witness for C5 in the disconnected initial state with a typed name. -/
theorem start_refused_without_connection_or_name_witness :
    (popupStartClick initialState "alpha" (.ok "srv1")).newState = initialState ∧
    (popupStartClick initialState "alpha" (.ok "srv1")).newState.sessionStatus = .IDLE ∧
    (popupStartClick initialState "alpha" (.ok "srv1")).startCallMade = false :=
  start_refused_without_connection_or_name initialState "alpha" (.ok "srv1") rfl
    (Or.inl rfl)

/-- CLAIM C6. Each heartbeat tick sets `isConnected` true on probe
success; on any probe failure it sets `isConnected` false and forces a
`RUNNING` session to `PAUSED` (so a connectivity drop while `RUNNING`
yields `PAUSED` within one tick); and the resulting state is published to
observers on every tick, changed or not. -/
theorem heartbeat_connectivity_and_publish (st : SessionState) (b : Bool) :
    (b = true → (heartbeatTick st b).newState.isConnected = true) ∧
    (b = false → (heartbeatTick st b).newState.isConnected = false ∧
      (st.sessionStatus = .RUNNING →
        (heartbeatTick st b).newState.sessionStatus = .PAUSED)) ∧
    (heartbeatTick st b).published = (heartbeatTick st b).newState := by
  refine ⟨?_, ?_, rfl⟩
  · rintro rfl
    simp [heartbeatTick]
  · rintro rfl
    refine ⟨by simp [heartbeatTick], ?_⟩
    intro hrun
    simp [heartbeatTick, hrun]

/-- Witness for C6: a failed probe while `RUNNING` pauses the session,
and a successful probe sets the connected flag. -/
theorem heartbeat_connectivity_and_publish_witness :
    ((heartbeatTick ⟨true, .RUNNING, "alpha", "srv1"⟩ false).newState.isConnected = false ∧
      (heartbeatTick ⟨true, .RUNNING, "alpha", "srv1"⟩ false).newState.sessionStatus =
        .PAUSED) ∧
    (heartbeatTick ⟨false, .IDLE, "", ""⟩ true).newState.isConnected = true := by
  constructor
  · have h := (heartbeat_connectivity_and_publish ⟨true, .RUNNING, "alpha", "srv1"⟩
      false).2.1 rfl
    exact ⟨h.1, h.2 rfl⟩
  · exact (heartbeat_connectivity_and_publish ⟨false, .IDLE, "", ""⟩ true).1 rfl

/-- CLAIM C2. Enqueuing the event that fills the queue to `BATCH_SIZE`
immediately flushes exactly the queued events in enqueue order and leaves
the queue empty; flushing an empty queue emits nothing and changes
nothing; and over any sequence of enqueues and flush triggers the
concatenation of all flushed batches followed by the pending queue is the
full enqueued sequence (nothing lost, nothing duplicated), so after a
final drain the flushed batches concatenate to exactly the enqueued
sequence. -/
theorem batch_queue_flush_roundtrip {α : Type} (s : BatchState α) (e : α) (b : Bool)
    (ops : List (BatchOp α))
    (hlen : s.queue.length + 1 = BATCH_SIZE) :
    (recordEventEnqueue s e =
      ({ queue := [], timerArmed := false }, some (s.queue ++ [e]))) ∧
    (sendBatch ({ queue := [], timerArmed := b } : BatchState α) =
      ({ queue := [], timerArmed := false }, none)) ∧
    (((runBatch (initialBatch α) ops).2).flatten ++
        (runBatch (initialBatch α) ops).1.queue = enqueuedEvents ops) ∧
    (((runBatch (initialBatch α) (ops ++ [BatchOp.flush])).2).flatten =
      enqueuedEvents ops) := by
  refine ⟨?_, ?_, ?_, ?_⟩
  · have hle : BATCH_SIZE ≤ s.queue.length + 1 := hlen.ge
    have hq : (s.queue ++ [e]).isEmpty = false := by simp
    simp [recordEventEnqueue, sendBatch, hle, hq]
  · simp [sendBatch]
  · simpa [initialBatch] using runBatch_conservation ops (initialBatch α)
  · have h := runBatch_conservation (ops ++ [BatchOp.flush]) (initialBatch α)
    rw [runBatch_trailing_flush_queue, enqueuedEvents_append_flush] at h
    simpa [initialBatch] using h

/-- Witness for C2 over `Nat` events: the tenth event flushes the ten
queued events in order, and a small run with an explicit drain loses and
duplicates nothing. -/
theorem batch_queue_flush_roundtrip_witness :
    (recordEventEnqueue ⟨[0, 1, 2, 3, 4, 5, 6, 7, 8], true⟩ 9 =
      ({ queue := [], timerArmed := false },
        some [0, 1, 2, 3, 4, 5, 6, 7, 8, 9])) ∧
    (sendBatch ({ queue := [], timerArmed := true } : BatchState Nat) =
      ({ queue := [], timerArmed := false }, none)) ∧
    (((runBatch (initialBatch Nat) [.enq 1, .flush, .enq 2]).2).flatten ++
        (runBatch (initialBatch Nat) [.enq 1, .flush, .enq 2]).1.queue =
      enqueuedEvents [.enq 1, .flush, .enq 2]) ∧
    (((runBatch (initialBatch Nat)
          ([.enq 1, .flush, .enq 2] ++ [BatchOp.flush])).2).flatten =
      enqueuedEvents [.enq 1, .flush, .enq 2]) := by
  have h := batch_queue_flush_roundtrip ⟨[0, 1, 2, 3, 4, 5, 6, 7, 8], true⟩ 9 true
    [.enq 1, .flush, .enq 2] (by decide)
  refine ⟨?_, h.2.1, h.2.2.1, h.2.2.2⟩
  have h1 := h.1
  simpa using h1

/-- CLAIM C7. Over any sequence of accepted movements that all resolve
to the same target `t` (fires included), at most one hover event is
recorded; a movement resolving to a new target while a settle timer is
pending cancels that timer and schedules a fresh one without recording
anything, so the next fire records the new target, not the old one; and
in general the number of hover records over a run never exceeds the
number of distinct dwell starts. -/
theorem hover_debounce_one_per_dwell {α : Type} [DecidableEq α] (t u : α)
    (s : HoverState α) (sigs : List (HoverSignal α))
    (hsame : ∀ v, HoverSignal.move v ∈ sigs → v = t)
    (hpend : s.pending = true) (htr : s.tracked = some u) (hne : u ≠ t) :
    ((runHover (initialHover α) sigs).2.length ≤ 1) ∧
    (hoverStep s (.move t) = ({ tracked := some t, pending := true }, none)) ∧
    ((hoverStep (hoverStep s (.move t)).1 .fire).2 = some t) ∧
    (∀ sigs' : List (HoverSignal α),
      (runHover (initialHover α) sigs').2.length ≤ dwellStarts none sigs') := by
  refine ⟨?_, ?_, ?_, ?_⟩
  · have h1 := runHover_records_le sigs (initialHover α)
    have h2 := dwellStarts_const_target t sigs hsame none
    simp [initialHover] at h1 h2 ⊢
    omega
  · have hne2 : ¬ s.tracked = some t := by
      rw [htr]
      simp [hne]
    simp [hoverStep, hne2]
  · have hne2 : ¬ s.tracked = some t := by
      rw [htr]
      simp [hne]
    simp [hoverStep, hne2]
  · intro sigs'
    have h1 := runHover_records_le sigs' (initialHover α)
    simpa [initialHover] using h1

/-- Witness for C7 over `Nat` targets: moves that all resolve to target
`2` produce a single hover, and a retargeting move from a pending dwell
on `1` cancels the old timer so the following fire records `2`. -/
theorem hover_debounce_one_per_dwell_witness :
    ((runHover (initialHover Nat) [.move 2, .move 2, .fire, .move 2]).2.length ≤ 1) ∧
    (hoverStep ({ tracked := some 1, pending := true } : HoverState Nat) (.move 2) =
      ({ tracked := some 2, pending := true }, none)) ∧
    ((hoverStep (hoverStep ({ tracked := some 1, pending := true } : HoverState Nat)
        (.move 2)).1 .fire).2 = some 2) ∧
    (∀ sigs' : List (HoverSignal Nat),
      (runHover (initialHover Nat) sigs').2.length ≤ dwellStarts none sigs') :=
  hover_debounce_one_per_dwell 2 1 ({ tracked := some 1, pending := true })
    [.move 2, .move 2, .fire, .move 2]
    (by
      intro v hv
      simp at hv
      exact hv)
    rfl rfl (by decide)

/-- CLAIM C8, counterexample. An ordinary element whose outerHTML is 501
units long gets a stored excerpt of 503 units — the 500 kept units plus
the 3-unit `"..."` marker — which exceeds the claimed cap of 500. -/
theorem excerpt_cap_counterexample :
    (safeHTML "DIV" (List.replicate 501 'a')).length = 503 ∧
    ¬ (safeHTML "DIV" (List.replicate 501 'a')).length ≤ 500 := by
  have hlen : (List.replicate 501 'a').length = 501 := List.length_replicate 501 'a'
  have hcond : EXCERPT_CAP < (List.replicate 501 'a').length := by
    rw [hlen]
    decide
  have hbody : ¬ (("DIV" : String) = "BODY" ∨ ("DIV" : String) = "HTML") := by decide
  have h : safeHTML "DIV" (List.replicate 501 'a') =
      (List.replicate 501 'a').take EXCERPT_CAP ++ ['.', '.', '.'] := by
    unfold safeHTML truncateExcerpt
    rw [if_neg hbody, if_pos hcond]
  have h2 : (safeHTML "DIV" (List.replicate 501 'a')).length = 503 := by
    rw [h, List.length_append, List.length_take, hlen]
    decide
  exact ⟨h2, by rw [h2]; decide⟩

/-- CLAIM C8, amended. The stored excerpt is at most `EXCERPT_CAP + 3`
units long (the cap plus the 3-unit truncation marker); for a non-body
element whose source exceeds the cap, the excerpt is exactly the first
500 units followed by the visible `"..."` marker, and source at or under
the cap is stored unchanged. -/
theorem excerpt_cap_with_marker (tagName : String) (html : List Char) :
    ((safeHTML tagName html).length ≤ EXCERPT_CAP + 3) ∧
    (EXCERPT_CAP < html.length → ¬ (tagName = "BODY" ∨ tagName = "HTML") →
      safeHTML tagName html = html.take EXCERPT_CAP ++ ['.', '.', '.']) ∧
    (html.length ≤ EXCERPT_CAP → ¬ (tagName = "BODY" ∨ tagName = "HTML") →
      safeHTML tagName html = html) := by
  refine ⟨?_, ?_, ?_⟩
  · by_cases hb : tagName = "BODY" ∨ tagName = "HTML"
    · simp [safeHTML, hb, EXCERPT_CAP]
    · by_cases hlen : EXCERPT_CAP < html.length
      · simp only [safeHTML, truncateExcerpt, if_neg hb, if_pos hlen]
        rw [List.length_append, List.length_take]
        have : min EXCERPT_CAP html.length ≤ EXCERPT_CAP := Nat.min_le_left _ _
        simp only [List.length_cons, List.length_nil]
        omega
      · simp only [safeHTML, truncateExcerpt, if_neg hb, if_neg hlen]
        omega
  · intro hlen hb
    simp only [safeHTML, truncateExcerpt, if_neg hb, if_pos hlen]
  · intro hlen hb
    have hlt : ¬ EXCERPT_CAP < html.length := by omega
    simp only [safeHTML, truncateExcerpt, if_neg hb, if_neg hlt]

/-- Witness for C8's amended statement at a 501-unit div excerpt and a
short span excerpt. -/
theorem excerpt_cap_with_marker_witness :
    ((safeHTML "DIV" (List.replicate 501 'a')).length ≤ EXCERPT_CAP + 3) ∧
    (safeHTML "DIV" (List.replicate 501 'a') =
      (List.replicate 501 'a').take EXCERPT_CAP ++ ['.', '.', '.']) ∧
    (safeHTML "SPAN" ['<', 'b', '>'] = ['<', 'b', '>']) :=
  ⟨(excerpt_cap_with_marker "DIV" (List.replicate 501 'a')).1,
   (excerpt_cap_with_marker "DIV" (List.replicate 501 'a')).2.1
     (by rw [List.length_replicate]; decide) (by decide),
   (excerpt_cap_with_marker "SPAN" ['<', 'b', '>']).2.2 (by decide) (by decide)⟩

/-- CLAIM C10. For a resolved target whose tagName is `BODY` or `HTML`,
the stored excerpt is the fixed sentinel `"BODY_CONTAINER"`, whatever the
element's actual outerHTML content or length. -/
theorem body_container_sentinel (tagName : String) (html : List Char)
    (h : tagName = "BODY" ∨ tagName = "HTML") :
    safeHTML tagName html = "BODY_CONTAINER".data := by
  simp [safeHTML, h]

/-- Witness for C10: a body element with a long outerHTML stores exactly
the sentinel. -/
theorem body_container_sentinel_witness :
    safeHTML "BODY" (List.replicate 1000 'x') = "BODY_CONTAINER".data :=
  body_container_sentinel "BODY" (List.replicate 1000 'x') (Or.inl rfl)

/-- CLAIM C9. An id judged dynamic (three or more consecutive digits, or
longer than 30 characters) is never used as an anchor — the generated
selector is the same as if the element had no id at all, and the walk
continues upward — yet the id is still recorded verbatim in the event's
`target.id` field; while a non-empty id judged stable anchors the
selector as `tag#id` and stops the upward traversal, making the selector
independent of everything above the element. -/
theorem dynamic_id_excluded_but_recorded (e : DomElem) (rest rest2 : List DomElem) :
    (isDynamicId e.id = true →
      getCssSelector (e :: rest) = getCssSelector ({ e with id := "" } :: rest) ∧
      targetIdField e = some e.id) ∧
    (e.id ≠ "" → isDynamicId e.id = false →
      getCssSelector (e :: rest) = lowerTag e.tagName ++ "#" ++ e.id ∧
      getCssSelector (e :: rest) = getCssSelector (e :: rest2)) := by
  constructor
  · intro hdyn
    constructor
    · simp [getCssSelector, cssPath, hdyn, selectorSeg]
    · simp [targetIdField, isDynamicId_ne_empty e.id hdyn]
  · intro hid hstable
    have hanchor : cssPath (e :: rest) = [lowerTag e.tagName ++ "#" ++ e.id] := by
      simp [cssPath, hid, hstable]
    have hanchor2 : cssPath (e :: rest2) = [lowerTag e.tagName ++ "#" ++ e.id] := by
      simp [cssPath, hid, hstable]
    constructor
    · unfold getCssSelector
      rw [hanchor]
      rfl
    · unfold getCssSelector
      rw [hanchor, hanchor2]

/-- Witness for C9: the dynamic id `"item-48231"` does not anchor the
selector but is recorded verbatim, and the stable id `"sidebar"` anchors
and stops the walk. -/
theorem dynamic_id_excluded_but_recorded_witness :
    (getCssSelector (⟨"DIV", "item-48231", "", 2⟩ :: [⟨"MAIN", "", "", 1⟩]) =
        getCssSelector (⟨"DIV", "", "", 2⟩ :: [⟨"MAIN", "", "", 1⟩]) ∧
      targetIdField ⟨"DIV", "item-48231", "", 2⟩ = some "item-48231") ∧
    (getCssSelector (⟨"NAV", "sidebar", "menu open", 1⟩ :: [⟨"MAIN", "", "", 1⟩]) =
        "nav#sidebar" ∧
      getCssSelector (⟨"NAV", "sidebar", "menu open", 1⟩ :: [⟨"MAIN", "", "", 1⟩]) =
        getCssSelector (⟨"NAV", "sidebar", "menu open", 1⟩ :: [⟨"BODY", "", "", 3⟩])) := by
  constructor
  · exact (dynamic_id_excluded_but_recorded ⟨"DIV", "item-48231", "", 2⟩
      [⟨"MAIN", "", "", 1⟩] []).1 (by decide)
  · have h := (dynamic_id_excluded_but_recorded ⟨"NAV", "sidebar", "menu open", 1⟩
      [⟨"MAIN", "", "", 1⟩] [⟨"BODY", "", "", 3⟩]).2 (by decide) (by decide)
    refine ⟨?_, h.2⟩
    rw [h.1]
    decide

end CursorTracker
